import Mathlib

/-!
Shallow embedding of `src/main.py`: a single addition function
`add_two_numbers` and a driver `main` that prints a fixed demonstration
sum, then reads two lines from standard input, parses them with the
CPython builtin `float`, and prints their sum, catching `ValueError`.

Modelling choices:
* Python numbers are embedded exactly: `int` as `ℤ`, `float` as `ℚ`.
  Infinities and NaN are outside the model; every numeric value appearing
  in the concrete claims (2.5, 4.5, 5, 3, -3, 0, 2) and every arithmetic
  step on them is exact in binary64, so the exact rational model agrees
  with CPython on those runs.  Where rounding matters — associativity of
  float addition over arbitrary operands — the file also carries the
  rounded refinement `round64` / `pyAddB64`, which models binary64
  round-to-nearest, ties-to-even explicitly.
* `float(s)` is embedded by `pyFloat`, covering the sign / digits /
  decimal point / exponent grammar with surrounding whitespace; the
  special spellings `inf`, `nan` and digit-group underscores are outside
  the model (they do not occur in any claim).
* The f-string conversion `str(x)` is embedded by `pyStr`; for floats it
  models CPython `repr` on values with a finite decimal expansion (every
  float produced in the claims), printing the exact shortest decimal with
  at least one fractional digit.
* Standard input is a list of lines; `input()` yields the next line or,
  when the list is exhausted, raises `EOFError`, which the
  `except ValueError` clause does not catch, so the process dies with a
  traceback and exit status 1.  A run is a list of output events
  (prompts written by `input`, lines written by `print`) plus the exit
  status.
-/

/- The Batteries rational-number operations are marked irreducible, which
blocks `decide` and `rfl` from evaluating concrete runs of the embedded
program; re-marking them semireducible here only restores unfolding
during elaboration and changes no statement or proof obligation. -/
attribute [local semireducible] Rat.add Rat.mul Rat.sub Rat.inv

/-- A Python numeric value as it occurs in `main.py`: an `int` or a
(finite) `float`, the latter embedded as an exact rational. -/
inductive PyNum where
  | intVal : ℤ → PyNum
  | floatVal : ℚ → PyNum
deriving DecidableEq, Repr

/-- Python `+` on the embedded numbers: `int + int` is an `int`; any
operand being a `float` makes the result a `float`. -/
def pyAdd : PyNum → PyNum → PyNum
  | .intVal m, .intVal n => .intVal (m + n)
  | .intVal m, .floatVal q => .floatVal ((m : ℚ) + q)
  | .floatVal q, .intVal n => .floatVal (q + (n : ℚ))
  | .floatVal p, .floatVal q => .floatVal (p + q)

/-- `add_two_numbers(a, b)` from `src/main.py` line 1: returns `a + b`. -/
def add_two_numbers (a b : PyNum) : PyNum := pyAdd a b

/-- The numeric denotation of an embedded Python number. -/
def toRat : PyNum → ℚ
  | .intVal n => (n : ℚ)
  | .floatVal q => q

/-- ASCII whitespace stripped by `float`: space, tab, line feed, vertical
tab, form feed, carriage return. -/
def isWs (c : Char) : Bool :=
  (c.toNat == 32) || (c.toNat == 9) || (c.toNat == 10) ||
  (c.toNat == 11) || (c.toNat == 12) || (c.toNat == 13)

/-- ASCII decimal digit test. -/
def isDigitCh (c : Char) : Bool :=
  (48 ≤ c.toNat) && (c.toNat ≤ 57)

/-- Consume a run of leading digits, returning the accumulated value, the
number of digits consumed, and the remaining characters. -/
def takeDigits (acc cnt : ℕ) : List Char → ℕ × ℕ × List Char
  | [] => (acc, cnt, [])
  | c :: cs =>
    if isDigitCh c then takeDigits (acc * 10 + (c.toNat - 48)) (cnt + 1) cs
    else (acc, cnt, c :: cs)

/-- Parse the optional exponent suffix of a float literal: empty input
means exponent 0; otherwise the letter e or E, an optional sign, and at
least one digit, consuming the whole input. -/
def parseExpPart : List Char → Option ℤ
  | [] => some 0
  | c :: cs =>
    if (c.toNat == 101) || (c.toNat == 69) then
      let (sg, ds) : ℤ × List Char :=
        match cs with
        | d :: t => if d.toNat == 43 then (1, t)
                    else if d.toNat == 45 then (-1, t) else (1, d :: t)
        | [] => (1, [])
      let (n, cnt, rest) := takeDigits 0 0 ds
      if 1 ≤ cnt ∧ rest = [] then some (sg * (n : ℤ)) else none
    else none

/-- Scale a rational by a signed power of ten. -/
def mulPow10 (q : ℚ) (e : ℤ) : ℚ :=
  if 0 ≤ e then q * (10 : ℚ) ^ e.toNat else q / (10 : ℚ) ^ (-e).toNat

/-- Parse an unsigned float literal: digits with an optional decimal
point (at least one digit overall) followed by an optional exponent. -/
def parseUnsigned (cs : List Char) : Option ℚ :=
  let (ip, c1, rest1) := takeDigits 0 0 cs
  match rest1 with
  | c :: rest2 =>
    if c.toNat == 46 then
      let (fp, c2, rest3) := takeDigits 0 0 rest2
      if c1 + c2 = 0 then none
      else
        match parseExpPart rest3 with
        | some e => some (mulPow10 ((ip : ℚ) + (fp : ℚ) / (10 : ℚ) ^ c2) e)
        | none => none
    else
      if c1 = 0 then none
      else
        match parseExpPart (c :: rest2) with
        | some e => some (mulPow10 (ip : ℚ) e)
        | none => none
  | [] => if c1 = 0 then none else some (ip : ℚ)

/-- Drop surrounding whitespace. -/
def stripWs (cs : List Char) : List Char :=
  ((cs.dropWhile isWs).reverse.dropWhile isWs).reverse

/-- The CPython builtin `float` applied to a string, as used on lines 24
and 25 of `src/main.py`: `none` models the `ValueError` raised on a
string that is not a float literal.  The special spellings inf and nan
and underscore digit separators are outside the model. -/
def pyFloat (s : String) : Option ℚ :=
  match stripWs s.data with
  | c :: t =>
    if c.toNat == 43 then parseUnsigned t
    else if c.toNat == 45 then (parseUnsigned t).map (fun q => -q)
    else parseUnsigned (c :: t)
  | [] => none

/-- Floor of a nonnegative rational, as a natural number. -/
def natFloor (q : ℚ) : ℕ := q.num.toNat / q.den

/-- Exact decimal digits of a fractional part `0 ≤ q < 1`, fuel-bounded;
the fuel is never exhausted on the finite expansions this file uses. -/
def fracDigits : ℕ → ℚ → List ℕ
  | 0, _ => []
  | fuel + 1, q =>
    if q.num = 0 then []
    else
      let q10 := q * 10
      natFloor q10 :: fracDigits fuel (q10 - (natFloor q10 : ℚ))

/-- Render a list of decimal digit values as characters. -/
def digitsStr (ds : List ℕ) : String :=
  String.mk (ds.map (fun d => Char.ofNat (48 + d)))

/-- CPython `repr` of a nonnegative float with a finite decimal
expansion: the integer part, a decimal point, and the exact fractional
digits, or a single 0 fractional digit when the value is integral. -/
def pyFloatReprNonneg (a : ℚ) : String :=
  let ip := natFloor a
  let fr := a - (ip : ℚ)
  if fr.num = 0 then toString ip ++ ".0"
  else toString ip ++ "." ++ digitsStr (fracDigits 40 fr)

/-- CPython `repr` of a float with a finite decimal expansion. -/
def pyFloatRepr (q : ℚ) : String :=
  if q.num < 0 then "-" ++ pyFloatReprNonneg (-q) else pyFloatReprNonneg q

/-- Python `str` as applied by the f-strings of `main.py`. -/
def pyStr : PyNum → String
  | .intVal n => toString n
  | .floatVal q => pyFloatRepr q

/-- The shared f-string of lines 20 and 27 of `src/main.py`. -/
def theSumLine (x y r : PyNum) : String :=
  "The sum of " ++ pyStr x ++ " and " ++ pyStr y ++ " is: " ++ pyStr r

/-- One observable output event of a run: the prompt text written by
`input`, or a line written by `print`. -/
inductive OutEvent where
  | prompt : String → OutEvent
  | line : String → OutEvent
deriving DecidableEq, Repr

/-- The observable result of a run: the output events in order and the
process exit status. -/
structure RunResult where
  output : List OutEvent
  exitCode : ℕ
deriving DecidableEq, Repr

/-- Prompt of the first `input` call (line 24). -/
def prompt1 : String := "Enter the first number: "

/-- Prompt of the second `input` call (line 25). -/
def prompt2 : String := "Enter the second number: "

/-- An ASCII apostrophe, built from its code so the message below matches
CPython exactly. -/
def quoteCh : String := String.mk [Char.ofNat 39]

/-- The `ValueError` message CPython produces for `float(s)` on a bad
string: the literal text with `s` quoted in apostrophes. -/
def valueErrorMsg (s : String) : String :=
  "could not convert string to float: " ++ quoteCh ++ s ++ quoteCh

/-- The demonstration line printed by line 20 of `src/main.py`. -/
def demoEvent : OutEvent :=
  OutEvent.line (theSumLine (.intVal 5) (.intVal 3)
    (add_two_numbers (.intVal 5) (.intVal 3)))

/-- The driver `main` of `src/main.py` (lines 15 to 30), as a function
from the standard-input lines to the run result.  The demonstration line
is printed first; then each `input` writes its prompt and either yields
the next line or, on exhausted input, raises `EOFError`, which the
`except ValueError` clause does not catch (exit status 1).  A failed
`float` parse raises `ValueError`, which is caught and printed as an
Error line (exit status 0). -/
def pyMain (stdin : List String) : RunResult :=
  let demo := demoEvent
  match stdin with
  | [] => ⟨[demo, .prompt prompt1], 1⟩
  | l1 :: rest1 =>
    match pyFloat l1 with
    | none =>
        ⟨[demo, .prompt prompt1,
          .line ("Error: " ++ valueErrorMsg l1)], 0⟩
    | some q1 =>
      match rest1 with
      | [] => ⟨[demo, .prompt prompt1, .prompt prompt2], 1⟩
      | l2 :: _ =>
        match pyFloat l2 with
        | none =>
            ⟨[demo, .prompt prompt1, .prompt prompt2,
              .line ("Error: " ++ valueErrorMsg l2)], 0⟩
        | some q2 =>
            ⟨[demo, .prompt prompt1, .prompt prompt2,
              .line (theSumLine (.floatVal q1) (.floatVal q2)
                (add_two_numbers (.floatVal q1) (.floatVal q2)))], 0⟩

/-- Test for a prompt event. -/
def isPromptEv : OutEvent → Bool
  | .prompt _ => true
  | .line _ => false

/-- Boolean string-prefix test. -/
def strStartsWith (s pre : String) : Bool :=
  s.take pre.length == pre

/-- A printed line that is a sum line other than the fixed demonstration
line: the shape of the user-path output of line 27. -/
def isUserSumLine : OutEvent → Bool
  | .line s => strStartsWith s "The sum of" && !(OutEvent.line s == demoEvent)
  | .prompt _ => false

/-- A printed line reporting a caught `ValueError` (line 30). -/
def isErrorLine : OutEvent → Bool
  | .line s => strStartsWith s "Error:"
  | .prompt _ => false

/-- Normalize a positive rational to `m * 2 ^ e` with `1 ≤ m < 2`,
fuel-bounded; 4400 steps cover the whole binary64 exponent range.  The
comparisons are on numerator and denominator, which agree with the
rational order since denominators are positive. -/
def b64NormLoop : ℕ → ℚ → ℤ → ℚ × ℤ
  | 0, q, e => (q, e)
  | fuel + 1, q, e =>
    if q.num < (q.den : ℤ) then b64NormLoop fuel (q * 2) (e - 1)
    else if 2 * (q.den : ℤ) ≤ q.num then b64NormLoop fuel (q / 2) (e + 1)
    else (q, e)

/-- Round a nonnegative rational to the nearest integer, ties to even:
the IEEE 754 default rounding applied to an already scaled mantissa. -/
def roundHalfEven (x : ℚ) : ℕ :=
  let fl := natFloor x
  let fr := x - (fl : ℚ)
  if 2 * fr.num < (fr.den : ℤ) then fl
  else if (fr.den : ℤ) < 2 * fr.num then fl + 1
  else if fl % 2 = 0 then fl else fl + 1

/-- Scale a rational by a signed power of two. -/
def mulPow2 (q : ℚ) (e : ℤ) : ℚ :=
  if 0 ≤ e then q * 2 ^ e.toNat else q / 2 ^ (-e).toNat

/-- Correctly rounded conversion of a positive rational to IEEE binary64:
normalize to `m * 2 ^ e` with `1 ≤ m < 2`, scale the mantissa to 52
fractional bits, and round half to even. -/
def round64pos (q : ℚ) : ℚ :=
  mulPow2 ((roundHalfEven ((b64NormLoop 4400 q 0).1 * 2 ^ 52) : ℕ) : ℚ)
    ((b64NormLoop 4400 q 0).2 - 52)

/-- Modelled from the host environment: the value of the IEEE binary64
(CPython `float`) nearest to a rational, round to nearest, ties to even,
valid in the normal range (overflow to infinity and subnormal underflow
are outside the model; no claim reaches them). -/
def round64 (q : ℚ) : ℚ :=
  if q.num = 0 then 0
  else if q.num < 0 then -round64pos (-q) else round64pos q

/-- Python `+` as the machine performs it on `float` operands: the exact
sum rounded to binary64.  This refines `pyAdd`, which keeps the exact
sum; the two agree whenever the exact sum is representable, which is the
case in every concrete run appearing in the other claims, but not for
general float operands such as the values of 0.1, 0.2 and 0.3. -/
def pyAddB64 : PyNum → PyNum → PyNum
  | .intVal m, .intVal n => .intVal (m + n)
  | .intVal m, .floatVal q => .floatVal (round64 ((m : ℚ) + q))
  | .floatVal q, .intVal n => .floatVal (round64 (q + (n : ℚ)))
  | .floatVal p, .floatVal q => .floatVal (round64 (p + q))

/-- C5: the demonstration step, run with the fixed values 5 and 3 before
any user input is read, prints exactly the line
`The sum of 5 and 3 is: 8`: on every standard input the very first
output event of the run is that line. -/
theorem demo_line_is_first_output (stdin : List String) :
    (pyMain stdin).output.head? =
      some (OutEvent.line "The sum of 5 and 3 is: 8") := by
  rcases stdin with _ | ⟨l1, rest⟩
  · decide
  · cases h1 : pyFloat l1 with
    | none => simp [pyMain, h1]; decide
    | some q1 =>
      rcases rest with _ | ⟨l2, rest2⟩
      · simp [pyMain, h1]; decide
      · cases h2 : pyFloat l2 <;> simp [pyMain, h1, h2] <;> decide

/-- C2: `add_two_numbers` returns exactly the Python sum `a + b`: its
numeric value is the sum of the numeric values of the operands, and on
each combination of `int` and `float` operands it returns the Python
result of `+` (an `int` only when both operands are `int`s).  It is a
pure total function of its two arguments by construction. -/
theorem add_two_numbers_contract :
    (∀ a b : PyNum, toRat (add_two_numbers a b) = toRat a + toRat b) ∧
    (∀ m n : ℤ, add_two_numbers (.intVal m) (.intVal n) = .intVal (m + n)) ∧
    (∀ (m : ℤ) (q : ℚ),
      add_two_numbers (.intVal m) (.floatVal q) = .floatVal ((m : ℚ) + q)) ∧
    (∀ (q : ℚ) (m : ℤ),
      add_two_numbers (.floatVal q) (.intVal m) = .floatVal (q + (m : ℚ))) ∧
    (∀ p q : ℚ,
      add_two_numbers (.floatVal p) (.floatVal q) = .floatVal (p + q)) := by
  refine ⟨?_, fun m n => rfl, fun m q => rfl, fun q m => rfl, fun p q => rfl⟩
  rintro (m | p) (n | q) <;> simp [add_two_numbers, pyAdd, toRat]

/-- C3: if the first standard-input line is the string abc, the program
prints a line beginning with Error:, prints no user sum line, and
terminates normally with exit status 0, whatever follows on standard
input. -/
theorem first_line_abc_reports_error (rest : List String) :
    (pyMain ("abc" :: rest)).exitCode = 0 ∧
    (pyMain ("abc" :: rest)).output =
      [demoEvent, OutEvent.prompt prompt1,
        OutEvent.line ("Error: " ++ valueErrorMsg "abc")] ∧
    isErrorLine (OutEvent.line ("Error: " ++ valueErrorMsg "abc")) = true ∧
    ∀ e ∈ (pyMain ("abc" :: rest)).output, isUserSumLine e = false := by
  have h1 : pyFloat "abc" = none := by decide
  have key : pyMain ("abc" :: rest) =
      ⟨[demoEvent, OutEvent.prompt prompt1,
        OutEvent.line ("Error: " ++ valueErrorMsg "abc")], 0⟩ := by
    simp only [pyMain, h1]
  rw [key]
  exact ⟨rfl, rfl, by decide, by decide⟩

/-- C9: when the first line fails to parse as a float, the second prompt
is never written and the run issues exactly one prompt: the whole output
is the demonstration line, the first prompt, and the error line. -/
theorem first_parse_failure_single_prompt (l1 : String) (rest : List String)
    (h : pyFloat l1 = none) :
    (pyMain (l1 :: rest)).output =
      [demoEvent, OutEvent.prompt prompt1,
        OutEvent.line ("Error: " ++ valueErrorMsg l1)] ∧
    OutEvent.prompt prompt2 ∉ (pyMain (l1 :: rest)).output ∧
    ((pyMain (l1 :: rest)).output.filter isPromptEv).length = 1 := by
  have key : pyMain (l1 :: rest) =
      ⟨[demoEvent, OutEvent.prompt prompt1,
        OutEvent.line ("Error: " ++ valueErrorMsg l1)], 0⟩ := by
    simp only [pyMain, h]
  rw [key]
  refine ⟨rfl, ?_, ?_⟩
  · intro hmem
    simp only [List.mem_cons, List.not_mem_nil, or_false] at hmem
    rcases hmem with h1 | h1 | h1
    · exact absurd h1 (by decide)
    · exact absurd h1 (by decide)
    · exact OutEvent.noConfusion h1
  · simp [isPromptEv, demoEvent, List.filter]

/-- Witness for the single-prompt theorem at the concrete failing first
line xyz with empty remaining input. -/
theorem first_parse_failure_single_prompt_witness :
    (pyMain ["xyz"]).output =
      [demoEvent, OutEvent.prompt prompt1,
        OutEvent.line ("Error: " ++ valueErrorMsg "xyz")] ∧
    OutEvent.prompt prompt2 ∉ (pyMain ["xyz"]).output ∧
    ((pyMain ["xyz"]).output.filter isPromptEv).length = 1 :=
  first_parse_failure_single_prompt "xyz" [] (by decide)

/-- C8: on every standard input the run terminates (the driver is a total
function) after issuing at most two prompts, and it never re-prompts: the
prompt events are either the first prompt alone or the first prompt
followed once by the second. -/
theorem at_most_two_prompts (stdin : List String) :
    ((pyMain stdin).output.filter isPromptEv).length ≤ 2 ∧
    ((pyMain stdin).output.filter isPromptEv = [OutEvent.prompt prompt1] ∨
      (pyMain stdin).output.filter isPromptEv =
        [OutEvent.prompt prompt1, OutEvent.prompt prompt2]) := by
  rcases stdin with _ | ⟨l1, rest⟩
  · exact ⟨by decide, Or.inl (by decide)⟩
  · cases h1 : pyFloat l1 with
    | none =>
        refine ⟨?_, Or.inl ?_⟩ <;>
          simp [pyMain, h1, List.filter, isPromptEv, demoEvent]
    | some q1 =>
      rcases rest with _ | ⟨l2, rest2⟩
      · refine ⟨?_, Or.inr ?_⟩ <;>
          simp [pyMain, h1, List.filter, isPromptEv, demoEvent]
      · cases h2 : pyFloat l2 <;>
          · refine ⟨?_, Or.inr ?_⟩ <;>
              simp [pyMain, h1, h2, List.filter, isPromptEv, demoEvent]

/-- Counterexample to C4 as stated: on exhausted standard input (no lines
available), the first `input` call raises `EOFError`, which the
`except ValueError` clause does not catch, and the process exits with
status 1, not 0. -/
theorem exhausted_stdin_nonzero_exit :
    (pyMain []).exitCode = 1 ∧ ¬ (pyMain []).exitCode = 0 := by decide

/-- C4 amended: the exit status is always 0 or 1, and it is 0 exactly
when standard input supplies every line the program asks for: at least
two lines, or a single line that fails float parsing (so the second read
never happens).  The caught parse error exits 0 like the success path;
only input exhaustion (uncaught `EOFError`) exits 1. -/
theorem exit_status_characterization (stdin : List String) :
    ((pyMain stdin).exitCode = 0 ∨ (pyMain stdin).exitCode = 1) ∧
    ((pyMain stdin).exitCode = 0 ↔
      2 ≤ stdin.length ∨ ∃ l, stdin = [l] ∧ pyFloat l = none) := by
  rcases stdin with _ | ⟨l1, _ | ⟨l2, rest⟩⟩
  · constructor
    · exact Or.inr rfl
    · simp [pyMain]
  · cases h1 : pyFloat l1 with
    | none =>
        constructor
        · exact Or.inl (by simp [pyMain, h1])
        · simp [pyMain, h1]
    | some q1 =>
        constructor
        · exact Or.inr (by simp [pyMain, h1])
        · simp [pyMain, h1]
  · cases h1 : pyFloat l1 <;> [skip; cases h2 : pyFloat l2] <;>
      constructor <;>
        simp_all [pyMain]

/-- Counterexample to C1 as stated: on the stdin lines 2.5 and 4.5 the
program never prints the line `The sum of 2.5 and 4.5 is: 9.0`; the sum
of 2.5 and 4.5 is 7.0 and the printed user line says so. -/
theorem no_nine_line_for_2_5_and_4_5 :
    OutEvent.line "The sum of 2.5 and 4.5 is: 9.0" ∉
      (pyMain ["2.5", "4.5"]).output ∧
    (pyMain ["2.5", "4.5"]).output =
      [demoEvent, OutEvent.prompt prompt1, OutEvent.prompt prompt2,
        OutEvent.line "The sum of 2.5 and 4.5 is: 7.0"] := by decide

/-- C1 amended: given the two stdin lines 2.5 and 4.5, the program
(after the demonstration line and the two prompts) prints exactly the
line `The sum of 2.5 and 4.5 is: 7.0`, prints no error line, and exits
with status 0. -/
theorem sum_line_for_2_5_and_4_5 :
    (pyMain ["2.5", "4.5"]).output =
      [demoEvent, OutEvent.prompt prompt1, OutEvent.prompt prompt2,
        OutEvent.line "The sum of 2.5 and 4.5 is: 7.0"] ∧
    (pyMain ["2.5", "4.5"]).exitCode = 0 ∧
    ∀ e ∈ (pyMain ["2.5", "4.5"]).output, isErrorLine e = false := by decide

/-- C7: given the stdin lines -3 and 0, both parse (to -3 and 0), the
computed user sum has numeric value -3, and the printed user line shows
that sum. -/
theorem negative_and_zero_sum :
    (pyMain ["-3", "0"]).output =
      [demoEvent, OutEvent.prompt prompt1, OutEvent.prompt prompt2,
        OutEvent.line "The sum of -3.0 and 0.0 is: -3.0"] ∧
    pyFloat "-3" = some (-3) ∧ pyFloat "0" = some 0 ∧
    toRat (add_two_numbers (PyNum.floatVal (-3)) (PyNum.floatVal 0)) = -3 ∧
    (pyMain ["-3", "0"]).exitCode = 0 := by decide

/-- C10: on the successful user path the operands and sum are floats and
print in floating-point form: for the stdin lines 2 and 3 the user line
is `The sum of 2.0 and 3.0 is: 5.0`, not the integer-form
`The sum of 2 and 3 is: 5`, while the demonstration line uses the
integer form. -/
theorem user_sum_line_float_form :
    (pyMain ["2", "3"]).output =
      [demoEvent, OutEvent.prompt prompt1, OutEvent.prompt prompt2,
        OutEvent.line "The sum of 2.0 and 3.0 is: 5.0"] ∧
    OutEvent.line "The sum of 2 and 3 is: 5" ∉ (pyMain ["2", "3"]).output ∧
    demoEvent = OutEvent.line "The sum of 5 and 3 is: 8" := by decide

/-- Counterexample to C6 as stated: Python float addition is binary64
addition, and under the rounded refinement `pyAddB64` the sum of the
float values of the literals 0.1, 0.2 and 0.3 depends on association:
the left association gives the float 0.6000000000000001 (the binary64
value 5404319552844596 / 2 ^ 53) and the right association gives the
float 0.6 (the value 5404319552844595 / 2 ^ 53), exactly as CPython
computes. -/
theorem float_add_not_associative :
    pyAddB64
        (pyAddB64 (.floatVal (round64 (1 / 10))) (.floatVal (round64 (2 / 10))))
        (.floatVal (round64 (3 / 10))) ≠
      pyAddB64 (.floatVal (round64 (1 / 10)))
        (pyAddB64 (.floatVal (round64 (2 / 10)))
          (.floatVal (round64 (3 / 10)))) ∧
    round64 (1 / 10) = 3602879701896397 / 2 ^ 55 ∧
    round64 (2 / 10) = 3602879701896397 / 2 ^ 54 ∧
    round64 (3 / 10) = 5404319552844595 / 2 ^ 54 ∧
    pyAddB64
        (pyAddB64 (.floatVal (round64 (1 / 10))) (.floatVal (round64 (2 / 10))))
        (.floatVal (round64 (3 / 10))) =
      .floatVal (5404319552844596 / 2 ^ 53) ∧
    pyAddB64 (.floatVal (round64 (1 / 10)))
        (pyAddB64 (.floatVal (round64 (2 / 10)))
          (.floatVal (round64 (3 / 10)))) =
      .floatVal (5404319552844595 / 2 ^ 53) := by decide

/-- C6 amended: addition as computed by `add_two_numbers` is commutative
and has the Python int literal 0 as right identity; commutativity also
survives binary64 rounding, since both orders round the same exact sum;
and associativity holds for `int` operands, where Python arithmetic is
exact arbitrary-precision.  Associativity does not extend to arbitrary
float operands, where binary64 rounding breaks it. -/
theorem add_two_numbers_algebra_amended :
    (∀ a b : PyNum, add_two_numbers a b = add_two_numbers b a) ∧
    (∀ a : PyNum, add_two_numbers a (.intVal 0) = a) ∧
    (∀ m n k : ℤ,
      add_two_numbers (add_two_numbers (.intVal m) (.intVal n)) (.intVal k) =
        add_two_numbers (.intVal m)
          (add_two_numbers (.intVal n) (.intVal k))) ∧
    (∀ p q : ℚ,
      pyAddB64 (.floatVal p) (.floatVal q) =
        pyAddB64 (.floatVal q) (.floatVal p)) := by
  refine ⟨?_, ?_, ?_, ?_⟩
  · rintro (m | p) (n | q) <;> simp [add_two_numbers, pyAdd] <;> ring
  · rintro (m | p) <;> simp [add_two_numbers, pyAdd]
  · intro m n k
    simp [add_two_numbers, pyAdd, add_assoc]
  · intro p q
    simp [pyAddB64, add_comm]
